import Mathlib

/-!
Verification of the JSON-RPC dispatch engine declared in src/pc/rpc_client.hpp.

The header declares the engine (`rpc_client` with its pending-request vector
`rv_`, id free-list `reuse_`, subscription map `smap_` and next-id counter
`id_`), the request contract (`rpc_request`, `rpc_subscription`) and the
chain-specific error-code macros.  The member-function bodies live in a
translation unit that is not part of the source tree, so the operational
behaviour of `send`, `parse_response`, `add_notify` and `remove_notify` is
modelled from the specification; everything that is visible in the header
(the error-code constants, the class hierarchy of the concrete request
types, the data members of the engine) is translated from the source.
-/

/-- Error-code macro from src/pc/rpc_client.hpp line 8. -/
def PC_RPC_ERROR_BLOCK_CLEANED_UP : Int := -32001

/-- Error-code macro from src/pc/rpc_client.hpp line 9. -/
def PC_RPC_ERROR_SEND_TX_PREFLIGHT_FAIL : Int := -32002

/-- Error-code macro from src/pc/rpc_client.hpp line 10. -/
def PC_RPC_ERROR_TX_SIG_VERIFY_FAILURE : Int := -32003

/-- Error-code macro from src/pc/rpc_client.hpp line 11. -/
def PC_RPC_ERROR_BLOCK_NOT_AVAILABLE : Int := -32004

/-- Error-code macro from src/pc/rpc_client.hpp line 12. -/
def PC_RPC_ERROR_NODE_UNHEALTHY : Int := -32005

/-- Error-code macro from src/pc/rpc_client.hpp line 13. -/
def PC_RPC_ERROR_TX_PRECOMPILE_VERIFY_FAIL : Int := -32006

/-- Error-code macro from src/pc/rpc_client.hpp line 14. -/
def PC_RPC_ERROR_SLOT_SKIPPED : Int := -32007

/-- Error-code macro from src/pc/rpc_client.hpp line 15. -/
def PC_RPC_ERROR_NO_SNAPSHOT : Int := -32008

/-- Error-code macro from src/pc/rpc_client.hpp line 16. -/
def PC_RPC_ERROR_LONG_TERM_SLOT_SKIPPED : Int := -32009

/-- The state of one `rpc_request` object (header lines 94-151): the
request id assigned by the engine (`id_`, 0 while unassigned), the error
code (`ec_`, 0 while none), send/receive timestamps, the received flag,
and the two dispatch attributes of the concrete type: its transport
affinity (`get_is_http`) and whether it is an `rpc_subscription`.
Timestamps are `Int` (the source uses `int64_t`); ids are modelled as
`Nat` (the source uses `uint64_t`, which never overflows under the
free-list discipline). -/
structure rpc_request where
  id      : Nat
  ec      : Int
  sent_ts : Int
  recv_ts : Int
  is_recv : Bool
  is_http : Bool
  is_sub  : Bool
deriving DecidableEq

/-- The data members of `rpc_client` (header lines 62-75): the two
transport handles (`hptr_`, `wptr_`, modelled only by whether they are
configured), the error state inherited from `error`, the pending-request
table `rv_` (waiting requests by id, modelled as an association list of
(request id, request token)), the id free-list `reuse_` (a stack), the
subscription routing table `smap_` (subscription id to request token),
the next-request-id counter `id_` and a protocol-level parse-failure
counter. -/
structure rpc_client where
  hptr  : Bool
  wptr  : Bool
  cerr  : Bool
  rv    : List (Nat × Nat)
  reuse : List Nat
  smap  : List (Nat × Nat)
  id    : Nat
  nfail : Nat
deriving DecidableEq

/-- The whole observable system: the engine state, the store of all
`rpc_request` objects the caller has created (a request token is an index
into the store), and the trace of callback invocations (`on_response`
calls), recorded as the list of request tokens in invocation order. -/
structure engine where
  client : rpc_client
  store  : List rpc_request
  trace  : List Nat
deriving DecidableEq

/-- Association-list lookup for the pending table and the routing table. -/
def alist_find (k : Nat) : List (Nat × Nat) → Option Nat
  | [] => none
  | (i, t) :: rest => if i = k then some t else alist_find k rest

/-- Association-list key removal (the `unordered_map::erase` of `smap_`,
and the clearing of slot `id` in `rv_`): drops every binding of `k`. -/
def alist_remove (k : Nat) (l : List (Nat × Nat)) : List (Nat × Nat) :=
  l.filter (fun p => p.1 != k)

/-- The keys of an association list; for `rv` these are the pending
request ids. -/
def keys (l : List (Nat × Nat)) : List Nat :=
  l.map Prod.fst

/-- Modelled from the spec: `rpc_client()` — freshly constructed engine:
empty tables, empty free-list, next id counter starting so that ids start
at 1 (0 is reserved for unassigned/notification).  The constructor body
is not in src/. -/
def init_client (h w : Bool) : rpc_client :=
  { hptr := h, wptr := w, cerr := false, rv := [], reuse := [], smap := [],
    id := 1, nfail := 0 }

/-- An engine over a freshly constructed client with a caller-supplied
store of request objects and an empty callback trace. -/
def init_engine (h w : Bool) (st : List rpc_request) : engine :=
  { client := init_client h w, store := st, trace := [] }

/-- Modelled from the spec: whether the transport selected by the
request's affinity flag is configured (subscriptions require the push
channel; plain requests prefer HTTP if present, falling back to the push
channel). -/
def has_transport (c : rpc_client) (r : rpc_request) : Bool :=
  if r.is_http then c.hptr || c.wptr else c.wptr

/-- Modelled from the spec: step 1 of `rpc_client::send` — assign an id by
popping the free-list if non-empty, else `next_id++`.  The body of `send`
is not in src/. -/
def alloc_id (c : rpc_client) : Nat × rpc_client :=
  match c.reuse with
  | i :: rest => (i, { c with reuse := rest })
  | [] => (c.id, { c with id := c.id + 1 })

/-- Modelled from the spec: the synthetic local error code used when the
transport-level send fails; the concrete value is not visible in src/,
only that it marks an error. -/
def send_fail_err_code : Int := -1

/-- Modelled from the spec: `rpc_client::send` (body not in src/).
`ok` is the outcome of the transport-level send.  A request whose
affinity requires a missing transport fails fast with a configuration
error and consumes no id; otherwise an id is assigned, the request is
stored in the pending table, stamped and routed; on transport-level send
failure the request is immediately resolved with a synthetic local error
code, its callback fires and the id is released back to the free-list. -/
def send (ok : Bool) (now : Int) (t : Nat) (e : engine) : engine :=
  match e.store[t]? with
  | none => e
  | some r =>
    if has_transport e.client r then
      let a := alloc_id e.client
      let i := a.1
      let c := a.2
      if ok then
        { e with
          client := { c with rv := (i, t) :: c.rv },
          store := e.store.set t { r with id := i, sent_ts := now } }
      else
        { e with
          client := { c with reuse := i :: c.reuse },
          store := e.store.set t
            { r with id := i, sent_ts := now, recv_ts := now,
                     is_recv := true, ec := send_fail_err_code },
          trace := e.trace ++ [t] }
    else
      { e with client := { e.client with cerr := true } }

/-- The shape-dispatch alphabet of `rpc_client::parse_response`: a
response document bearing an `id` field, an optional `error.code` and,
for subscription acknowledgements, an optional server-assigned
subscription id in its result; a push notification bearing a
subscription id inside its parameters; or a document that is not valid
JSON-RPC shape. -/
inductive json_msg where
  | response (rid : Nat) (err : Option Int) (sid : Option Nat)
  | notify (sid : Nat)
  | malformed
deriving DecidableEq

/-- Modelled from the spec: `rpc_client::parse_response` (body not in
src/).  A response whose id matches a pending request records the receive
timestamp, sets the error code from `error.code` if present (else 0),
invokes the request's `response` and then the callback; a plain request
is removed from the pending table and its id released to the free-list,
a subscription stays pending and, when the response yields a
subscription id, is registered in the routing table.  A response whose
id matches nothing is dropped silently.  A notification is routed by its
subscription id through `smap_`, invoking the subscription's callback
when registered and dropped silently otherwise.  A malformed document is
dropped and counted as a protocol-level parse failure. -/
def parse_response (now : Int) (m : json_msg) (e : engine) : engine :=
  match m with
  | .malformed =>
    { e with client := { e.client with nfail := e.client.nfail + 1 } }
  | .notify sid =>
    match alist_find sid e.client.smap with
    | none => e
    | some t => { e with trace := e.trace ++ [t] }
  | .response rid err sid =>
    match alist_find rid e.client.rv with
    | none => e
    | some t =>
      match e.store[t]? with
      | none => e
      | some r =>
        let r2 := { r with recv_ts := now, is_recv := true, ec := err.getD 0 }
        if r.is_sub then
          let c := match sid with
            | some s => { e.client with smap := (s, t) :: e.client.smap }
            | none => e.client
          { e with client := c, store := e.store.set t r2,
                   trace := e.trace ++ [t] }
        else
          let c := { e.client with rv := alist_remove rid e.client.rv, reuse := rid :: e.client.reuse }
          { e with client := c, store := e.store.set t r2,
                   trace := e.trace ++ [t] }

/-- Modelled from the spec: `rpc_client::add_notify` — register the
request in the routing table under its subscription id (body not in
src/). -/
def add_notify (sid t : Nat) (e : engine) : engine :=
  { e with client := { e.client with smap := (sid, t) :: e.client.smap } }

/-- Modelled from the spec: `rpc_client::remove_notify` — remove the
request's subscription id from the routing table (body not in src/). -/
def remove_notify (sid : Nat) (e : engine) : engine :=
  { e with client := { e.client with smap := alist_remove sid e.client.smap } }

/-- One externally triggered event of the engine: a caller calling
`send`, an inbound message handed to `parse_response`, or the
registration calls. -/
inductive op where
  | send (ok : Bool) (now : Int) (t : Nat)
  | recv (now : Int) (m : json_msg)
  | addn (sid t : Nat)
  | rmn (sid : Nat)
deriving DecidableEq

/-- Execute one event. -/
def run_op (e : engine) : op → engine
  | .send ok now t => send ok now t e
  | .recv now m => parse_response now m e
  | .addn sid t => add_notify sid t e
  | .rmn sid => remove_notify sid e

/-- Execute a sequence of events. -/
def run (e : engine) : List op → engine
  | [] => e
  | o :: rest => run (run_op e o) rest

/-- The engine's id bookkeeping invariant: pending ids are pairwise
distinct, the free-list holds no duplicates and no currently pending id,
and every id that has ever been handed out (pending or free) is at least
1 and below the next-id counter. -/
def client_inv (c : rpc_client) : Prop :=
  1 ≤ c.id ∧
  (keys c.rv).Nodup ∧
  c.reuse.Nodup ∧
  (∀ i ∈ c.reuse, i ∉ keys c.rv) ∧
  (∀ i ∈ keys c.rv, 1 ≤ i ∧ i < c.id) ∧
  (∀ i ∈ c.reuse, 1 ≤ i ∧ i < c.id)

/-- The concrete request types declared in namespace `rpc` of the header
(lines 170-299). -/
inductive req_type where
  | get_account_info
  | get_recent_block_hash
  | get_health
  | signature_subscribe
  | transfer
  | create_account
deriving DecidableEq

/-- From the header: which concrete request types derive
`rpc_subscription` (line 228, `class signature_subscribe : public
rpc_subscription`); every other concrete type derives `rpc_request`
directly. -/
def derives_subscription : req_type → Bool
  | .signature_subscribe => true
  | _ => false

/-- Modelled from the spec: the virtual `get_is_http` per concrete type —
the `rpc_request` default returns true (HTTP-eligible) and the
`rpc_subscription` override returns false (the header only declares the
two virtuals, at lines 128 and 157, the latter under the comment that
subscriptions are only available on websockets); each concrete type
inherits the answer of its base class. -/
def get_is_http : req_type → Bool
  | .get_account_info => true
  | .get_recent_block_hash => true
  | .get_health => true
  | .signature_subscribe => false
  | .transfer => true
  | .create_account => true

/-- A plain (HTTP-eligible, non-subscription) request object as a caller
would construct it, all engine-owned fields still unset. -/
def req_a : rpc_request :=
  { id := 0, ec := 0, sent_ts := 0, recv_ts := 0, is_recv := false,
    is_http := true, is_sub := false }

/-- A subscription request object (push-channel-only). -/
def req_s : rpc_request :=
  { id := 0, ec := 0, sent_ts := 0, recv_ts := 0, is_recv := false,
    is_http := false, is_sub := true }

/-- A client with one pending request: id 1 is bound to request token
0, the counter already advanced past it. -/
def client_one : rpc_client :=
  { hptr := true, wptr := true, cerr := false, rv := [(1, 0)], reuse := [],
    smap := [], id := 2, nfail := 0 }

/-- An engine whose single plain request (token 0) is pending under
request id 1. -/
def eng_one : engine :=
  { client := client_one, store := [req_a], trace := [] }

/-- An engine whose single subscription (token 0) is registered in the
routing table under subscription id 42. -/
def eng_sub : engine :=
  { client := { hptr := true, wptr := true, cerr := false, rv := [],
                reuse := [], smap := [(42, 0)], id := 1, nfail := 0 },
    store := [req_s], trace := [] }

/-- An engine on which only the HTTP transport is configured, holding an
unsent subscription. -/
def eng_http_only : engine :=
  { client := { hptr := true, wptr := false, cerr := false, rv := [],
                reuse := [], smap := [], id := 1, nfail := 0 },
    store := [req_s], trace := [] }

/-- A client whose free-list currently holds the released ids 5 and 7
(5 released most recently). -/
def client_freelist : rpc_client :=
  { hptr := true, wptr := true, cerr := false, rv := [], reuse := [5, 7],
    smap := [], id := 9, nfail := 0 }

theorem find_mem_keys {k t : Nat} :
    ∀ {l : List (Nat × Nat)}, alist_find k l = some t → k ∈ keys l := by
  intro l
  induction l with
  | nil => intro h; simp [alist_find] at h
  | cons p rest ih =>
    intro h
    by_cases hp : p.1 = k
    · simp [keys, hp]
    · simp only [alist_find] at h
      rw [if_neg hp] at h
      · simp [keys] at ih ⊢
        exact Or.inr (ih h)

theorem keys_remove_sublist (k : Nat) (l : List (Nat × Nat)) :
    List.Sublist (keys (alist_remove k l)) (keys l) :=
  List.Sublist.map Prod.fst (List.filter_sublist l)

theorem mem_keys_remove {i k : Nat} {l : List (Nat × Nat)}
    (h : i ∈ keys (alist_remove k l)) : i ∈ keys l :=
  (keys_remove_sublist k l).mem h

theorem keys_remove_nodup {k : Nat} {l : List (Nat × Nat)}
    (h : (keys l).Nodup) : (keys (alist_remove k l)).Nodup :=
  (keys_remove_sublist k l).nodup h

theorem not_mem_keys_remove {k : Nat} {l : List (Nat × Nat)} :
    k ∉ keys (alist_remove k l) := by
  intro h
  simp only [keys, alist_remove, List.mem_map, List.mem_filter] at h
  obtain ⟨p, ⟨_, hne⟩, hk⟩ := h
  rw [hk] at hne
  simp at hne

theorem find_eq_none_of_not_mem {k : Nat} :
    ∀ {l : List (Nat × Nat)}, k ∉ keys l → alist_find k l = none := by
  intro l
  induction l with
  | nil => intro _; rfl
  | cons p rest ih =>
    intro h
    simp only [keys, List.map_cons, List.mem_cons] at h
    push_neg at h
    simp only [alist_find]
    rw [if_neg (fun he => h.1 he.symm)]
    exact ih (by simpa [keys] using h.2)

theorem find_remove_self {k : Nat} (l : List (Nat × Nat)) :
    alist_find k (alist_remove k l) = none :=
  find_eq_none_of_not_mem not_mem_keys_remove

theorem alloc_push_inv {c : rpc_client} (t : Nat) (h : client_inv c) :
    client_inv { (alloc_id c).2 with rv := ((alloc_id c).1, t) :: (alloc_id c).2.rv } := by
  obtain ⟨hid, hrv, hre, hdis, hbr, hbf⟩ := h
  cases hru : c.reuse with
  | nil =>
    rw [hru] at hre hdis hbf
    simp only [alloc_id, hru, client_inv, keys, List.map_cons]
    refine ⟨Nat.le_succ_of_le hid, ?_, ?_, ?_, ?_, ?_⟩
    · exact List.nodup_cons.mpr
        ⟨fun hm => absurd (hbr _ hm).2 (lt_irrefl _), hrv⟩
    · simp [hru]
    · simp [hru]
    · intro i hi
      rcases List.mem_cons.mp hi with rfl | hi
      · exact ⟨hid, Nat.lt_succ_self _⟩
      · exact ⟨(hbr i hi).1, Nat.lt_succ_of_lt (hbr i hi).2⟩
    · simp [hru]
  | cons i rest =>
    rw [hru] at hre hdis hbf
    simp only [alloc_id, hru, client_inv, keys, List.map_cons]
    obtain ⟨hir, hrest⟩ := List.nodup_cons.mp hre
    refine ⟨hid, ?_, hrest, ?_, ?_, ?_⟩
    · exact List.nodup_cons.mpr ⟨hdis i (List.mem_cons_self i rest), hrv⟩
    · intro j hj
      rw [List.mem_cons]
      push_neg
      refine ⟨fun he => hir (he ▸ hj), ?_⟩
      exact hdis j (List.mem_cons_of_mem i hj)
    · intro j hj
      rcases List.mem_cons.mp hj with rfl | hj
      · exact hbf j (List.mem_cons_self j rest)
      · exact hbr j hj
    · intro j hj
      exact hbf j (List.mem_cons_of_mem i hj)

theorem alloc_release_inv {c : rpc_client} (h : client_inv c) :
    client_inv { (alloc_id c).2 with reuse := (alloc_id c).1 :: (alloc_id c).2.reuse } := by
  obtain ⟨hid, hrv, hre, hdis, hbr, hbf⟩ := h
  cases hru : c.reuse with
  | nil =>
    rw [hru] at hre hdis hbf
    simp only [alloc_id, hru, client_inv, keys]
    refine ⟨Nat.le_succ_of_le hid, hrv, ?_, ?_, ?_, ?_⟩
    · simp
    · intro i hi
      rcases List.mem_cons.mp hi with rfl | hi
      · exact fun hm => absurd (hbr _ hm).2 (lt_irrefl _)
      · simp at hi
    · intro i hi
      exact ⟨(hbr i hi).1, Nat.lt_succ_of_lt (hbr i hi).2⟩
    · intro i hi
      rcases List.mem_cons.mp hi with rfl | hi
      · exact ⟨hid, Nat.lt_succ_self _⟩
      · simp at hi
  | cons i rest =>
    rw [hru] at hre hdis hbf
    simp only [alloc_id, hru, client_inv, keys]
    exact ⟨hid, hrv, hre, hdis, hbr, hbf⟩

theorem inv_resolve {c : rpc_client} {rid : Nat} (h : client_inv c)
    (hmem : rid ∈ keys c.rv) :
    client_inv { c with rv := alist_remove rid c.rv, reuse := rid :: c.reuse } := by
  obtain ⟨hid, hrv, hre, hdis, hbr, hbf⟩ := h
  refine ⟨hid, keys_remove_nodup hrv, ?_, ?_, ?_, ?_⟩
  · exact List.nodup_cons.mpr ⟨fun hm => hdis rid hm hmem, hre⟩
  · intro j hj
    rcases List.mem_cons.mp hj with rfl | hj
    · exact not_mem_keys_remove
    · exact fun hm => hdis j hj (mem_keys_remove hm)
  · intro j hj
    exact hbr j (mem_keys_remove hj)
  · intro j hj
    rcases List.mem_cons.mp hj with rfl | hj
    · exact hbr j hmem
    · exact hbf j hj

theorem send_inv {ok : Bool} {now : Int} {t : Nat} {e : engine}
    (h : client_inv e.client) : client_inv (send ok now t e).client := by
  cases hst : e.store[t]? with
  | none => simpa [send, hst] using h
  | some r =>
    cases htr : has_transport e.client r with
    | false => simpa [send, hst, htr] using h
    | true =>
      cases ok with
      | true =>
        have h2 := alloc_push_inv (c := e.client) t h
        simpa [send, hst, htr] using h2
      | false =>
        have h2 := alloc_release_inv (c := e.client) h
        simpa [send, hst, htr] using h2

theorem parse_inv {now : Int} {m : json_msg} {e : engine}
    (h : client_inv e.client) : client_inv (parse_response now m e).client := by
  cases m with
  | malformed => simpa [parse_response] using h
  | notify sid =>
    cases hf : alist_find sid e.client.smap with
    | none => simpa [parse_response, hf] using h
    | some t => simpa [parse_response, hf] using h
  | response rid err sid =>
    cases hf : alist_find rid e.client.rv with
    | none => simpa [parse_response, hf] using h
    | some t =>
      cases hst : e.store[t]? with
      | none => simpa [parse_response, hf, hst] using h
      | some r =>
        cases hsub : r.is_sub with
        | true =>
          cases sid with
          | none => simpa [parse_response, hf, hst, hsub] using h
          | some s => simpa [parse_response, hf, hst, hsub] using h
        | false =>
          have h2 := inv_resolve h (find_mem_keys hf)
          simpa [parse_response, hf, hst, hsub] using h2

theorem run_op_inv {e : engine} {o : op}
    (h : client_inv e.client) : client_inv (run_op e o).client := by
  cases o with
  | send ok now t => exact send_inv h
  | recv now m => exact parse_inv h
  | addn sid t => exact h
  | rmn sid => exact h

theorem run_inv {e : engine} (h : client_inv e.client) :
    ∀ ops : List op, client_inv (run e ops).client := by
  intro ops
  induction ops generalizing e with
  | nil => exact h
  | cons o rest ih => exact ih (run_op_inv h)

theorem init_inv (h w : Bool) : client_inv (init_client h w) := by
  simp [client_inv, init_client, keys]

/-- Claim C1: for every sequence of send and resolution operations on an
`rpc_client`, no two requests that are simultaneously pending in the
pending-request table ever hold the same request id. -/
theorem id_uniqueness (h w : Bool) (st : List rpc_request) (ops : List op) :
    (keys (run (init_engine h w st) ops).client.rv).Nodup :=
  (run_inv (init_inv h w) ops).2.1

theorem getElem_set_here {α : Type} {l : List α} {t : Nat} {x y : α}
    (h : l[t]? = some x) : (l.set t y)[t]? = some y := by
  induction l generalizing t with
  | nil => simp at h
  | cons a rest ih =>
    cases t with
    | zero => simp
    | succ n => simpa using ih (by simpa using h)

theorem alloc_id_rv (c : rpc_client) : (alloc_id c).2.rv = c.rv := by
  cases hru : c.reuse <;> simp [alloc_id, hru]

theorem alloc_id_fresh {c : rpc_client} (h : client_inv c) :
    (alloc_id c).1 ∉ keys c.rv := by
  obtain ⟨hid, hrv, hre, hdis, hbr, hbf⟩ := h
  cases hru : c.reuse with
  | nil =>
    simp only [alloc_id, hru]
    exact fun hm => absurd (hbr _ hm).2 (lt_irrefl _)
  | cons i rest =>
    simp only [alloc_id, hru]
    exact hdis i (by rw [hru]; exact List.mem_cons_self i rest)

/-- Claim C2: the id `send` assigns is popped from the free-list when the
free-list is non-empty and is the next unused counter value otherwise;
the first id ever assigned is 1, and id 0 is never assigned to a
request. -/
theorem send_id_assignment :
    (∀ c : rpc_client, ∀ i : Nat, ∀ rest : List Nat,
        c.reuse = i :: rest → alloc_id c = (i, { c with reuse := rest })) ∧
    (∀ c : rpc_client, c.reuse = [] →
        alloc_id c = (c.id, { c with id := c.id + 1 })) ∧
    (∀ e : engine, ∀ now : Int, ∀ t : Nat, ∀ r : rpc_request,
        e.store[t]? = some r → has_transport e.client r = true →
        (send true now t e).client.rv = ((alloc_id e.client).1, t) :: e.client.rv) ∧
    (∀ h w : Bool, ∀ st : List rpc_request, ∀ now : Int, ∀ t : Nat,
        ∀ r : rpc_request,
        st[t]? = some r → has_transport (init_client h w) r = true →
        (send true now t (init_engine h w st)).client.rv = [(1, t)]) ∧
    (∀ h w : Bool, ∀ st : List rpc_request, ∀ ops : List op,
        0 ∉ keys (run (init_engine h w st) ops).client.rv) := by
  refine ⟨?_, ?_, ?_, ?_, ?_⟩
  · intro c i rest hru
    simp [alloc_id, hru]
  · intro c hru
    simp [alloc_id, hru]
  · intro e now t r hst htr
    simp [send, hst, htr, alloc_id_rv]
  · intro h w st now t r hst htr
    simp only [init_engine, init_client] at htr ⊢
    simp [send, hst, htr, alloc_id]
  · intro h w st ops h0
    exact absurd ((run_inv (init_inv h w) ops).2.2.2.2.1 0 h0).1 (by simp)

/-- Witness for C2: with free-list [5, 7] the assigned id is the popped
5; on a fresh engine the first send assigns id 1. -/
theorem send_id_assignment_witness :
    alloc_id client_freelist = (5, { client_freelist with reuse := [7] }) ∧
    (send true 0 0 (init_engine true true [req_a])).client.rv = [(1, 0)] :=
  ⟨send_id_assignment.1 client_freelist 5 [7] rfl,
   send_id_assignment.2.2.2.1 true true [req_a] 0 0 req_a rfl rfl⟩

/-- Claim C3: when `parse_response` receives a response whose id matches
a pending request, the request's error code is set from the `error.code`
field when present and to 0 otherwise, and the callback fires exactly
once; in particular a response carrying error code -32005 leaves the
request's error code equal to -32005. -/
theorem error_propagation (e : engine) (rid t : Nat) (r : rpc_request)
    (err : Option Int) (sid : Option Nat) (now : Int)
    (hf : alist_find rid e.client.rv = some t)
    (hs : e.store[t]? = some r) :
    ((parse_response now (.response rid err sid) e).store[t]?
        = some { r with recv_ts := now, is_recv := true, ec := err.getD 0 }) ∧
    ((parse_response now (.response rid err sid) e).trace = e.trace ++ [t]) ∧
    (err = some PC_RPC_ERROR_NODE_UNHEALTHY →
      ((parse_response now (.response rid err sid) e).store[t]?).map rpc_request.ec
        = some (-32005)) := by
  have hstore : (parse_response now (.response rid err sid) e).store
      = e.store.set t { r with recv_ts := now, is_recv := true, ec := err.getD 0 } := by
    cases hsub : r.is_sub with
    | true =>
      cases sid with
      | none => simp [parse_response, hf, hs, hsub]
      | some s => simp [parse_response, hf, hs, hsub]
    | false => simp [parse_response, hf, hs, hsub]
  have htrace : (parse_response now (.response rid err sid) e).trace
      = e.trace ++ [t] := by
    cases hsub : r.is_sub with
    | true =>
      cases sid with
      | none => simp [parse_response, hf, hs, hsub]
      | some s => simp [parse_response, hf, hs, hsub]
    | false => simp [parse_response, hf, hs, hsub]
  have hset := getElem_set_here
    (y := { r with recv_ts := now, is_recv := true, ec := err.getD 0 }) hs
  refine ⟨by rw [hstore]; exact hset, htrace, ?_⟩
  intro he
  rw [hstore, hset]
  subst he
  simp [PC_RPC_ERROR_NODE_UNHEALTHY]

/-- Witness for C3: a pending request under id 1 receives a response
carrying error code -32005: its stored error code becomes -32005 and
exactly one callback is traced. -/
theorem error_propagation_witness :
    (((parse_response 7 (.response 1 (some (-32005)) none) eng_one).store[0]?).map
        rpc_request.ec = some (-32005)) ∧
    ((parse_response 7 (.response 1 (some (-32005)) none) eng_one).trace
        = eng_one.trace ++ [0]) :=
  ⟨(error_propagation eng_one 1 0 req_a (some (-32005)) none 7 rfl rfl).2.2 rfl,
   (error_propagation eng_one 1 0 req_a (some (-32005)) none 7 rfl rfl).2.1⟩

/-- Claim C4: a response whose id matches no pending request is dropped
silently: the engine — pending table, free-list, routing table, request
store and callback trace — is left exactly as it was. -/
theorem unknown_id_drop (e : engine) (rid : Nat) (err : Option Int)
    (sid : Option Nat) (now : Int)
    (hf : alist_find rid e.client.rv = none) :
    parse_response now (.response rid err sid) e = e := by
  simp [parse_response, hf]

/-- Witness for C4: delivering a response with id 999 while only id 1 is
pending changes nothing. -/
theorem unknown_id_drop_witness :
    parse_response 3 (.response 999 none none) eng_one = eng_one :=
  unknown_id_drop eng_one 999 none none 3 rfl

/-- Claim C5: with a subscription registered in the routing table under
subscription id 42, three notifications carrying id 42 invoke its
callback exactly three times in delivery order; after the subscription
is removed from the routing table a further notification with id 42
invokes no callback. -/
theorem subscription_lifecycle (e : engine) (t : Nat) (n1 n2 n3 n4 : Int)
    (hf : alist_find 42 e.client.smap = some t) :
    ((parse_response n3 (.notify 42) (parse_response n2 (.notify 42)
        (parse_response n1 (.notify 42) e))).trace = e.trace ++ [t, t, t]) ∧
    ((parse_response n4 (.notify 42) (remove_notify 42
        (parse_response n3 (.notify 42) (parse_response n2 (.notify 42)
          (parse_response n1 (.notify 42) e))))).trace = e.trace ++ [t, t, t]) := by
  have step : ∀ n : Int, ∀ x : engine, alist_find 42 x.client.smap = some t →
      parse_response n (.notify 42) x = { x with trace := x.trace ++ [t] } := by
    intro n x hx
    simp [parse_response, hx]
  have hdrop : ∀ n : Int, ∀ x : engine,
      parse_response n (.notify 42) (remove_notify 42 x) = remove_notify 42 x := by
    intro n x
    simp [parse_response, remove_notify, find_remove_self]
  have h1 := step n1 e hf
  have h2 := step n2 { e with trace := e.trace ++ [t] } hf
  have h3 := step n3 { e with trace := (e.trace ++ [t]) ++ [t] } hf
  rw [h1, h2, h3]
  refine ⟨by simp, ?_⟩
  rw [hdrop]
  simp [remove_notify]

/-- Witness for C5: three notifications for the subscription registered
under id 42 trace its token three times; after deregistration a fourth
notification traces nothing more. -/
theorem subscription_lifecycle_witness :
    ((parse_response 3 (.notify 42) (parse_response 2 (.notify 42)
        (parse_response 1 (.notify 42) eng_sub))).trace
      = eng_sub.trace ++ [0, 0, 0]) ∧
    ((parse_response 4 (.notify 42) (remove_notify 42
        (parse_response 3 (.notify 42) (parse_response 2 (.notify 42)
          (parse_response 1 (.notify 42) eng_sub))))).trace
      = eng_sub.trace ++ [0, 0, 0]) :=
  subscription_lifecycle eng_sub 0 1 2 3 4 rfl

/-- Claim C6: sending a subscription when only the HTTP transport is
configured fails immediately with a configuration error: the client's
error state is raised and no request id is consumed — free-list,
next-id counter, pending table, store and trace are unchanged. -/
theorem transport_affinity (e : engine) (t : Nat) (r : rpc_request)
    (ok : Bool) (now : Int)
    (hs : e.store[t]? = some r) (hsub : r.is_http = false)
    (_hh : e.client.hptr = true) (hw : e.client.wptr = false) :
    ((send ok now t e).client.cerr = true) ∧
    ((send ok now t e).client.reuse = e.client.reuse) ∧
    ((send ok now t e).client.id = e.client.id) ∧
    ((send ok now t e).client.rv = e.client.rv) ∧
    ((send ok now t e).store = e.store) ∧
    ((send ok now t e).trace = e.trace) := by
  have htr : has_transport e.client r = false := by
    simp [has_transport, hsub, hw]
  refine ⟨?_, ?_, ?_, ?_, ?_, ?_⟩ <;> simp [send, hs, htr]

/-- Witness for C6: the subscription in the HTTP-only engine fails at
send with the configuration error and id 1 is still the next id. -/
theorem transport_affinity_witness :
    ((send true 0 0 eng_http_only).client.cerr = true) ∧
    ((send true 0 0 eng_http_only).client.reuse = eng_http_only.client.reuse) ∧
    ((send true 0 0 eng_http_only).client.id = eng_http_only.client.id) := by
  have h := transport_affinity eng_http_only 0 req_s true 0 rfl rfl rfl rfl
  exact ⟨h.1, h.2.1, h.2.2.1⟩

/-- Claim C7: when the transport-level send fails, `send` resolves the
request immediately with the synthetic local (negative) error code, its
callback fires exactly once, and the assigned id is released back onto
the free-list instead of staying pending. -/
theorem transport_send_failure (e : engine) (t : Nat) (r : rpc_request)
    (now : Int)
    (hs : e.store[t]? = some r)
    (htr : has_transport e.client r = true)
    (hinv : client_inv e.client) :
    ((send false now t e).client.reuse
        = (alloc_id e.client).1 :: (alloc_id e.client).2.reuse) ∧
    ((send false now t e).client.rv = e.client.rv) ∧
    (alist_find (alloc_id e.client).1 (send false now t e).client.rv = none) ∧
    (((send false now t e).store[t]?).map rpc_request.ec = some send_fail_err_code) ∧
    send_fail_err_code < 0 ∧
    ((send false now t e).trace = e.trace ++ [t]) := by
  have hrv : (send false now t e).client.rv = e.client.rv := by
    simp [send, hs, htr, alloc_id_rv]
  have hset := getElem_set_here
    (y := { r with id := (alloc_id e.client).1, sent_ts := now, recv_ts := now,
                   is_recv := true, ec := send_fail_err_code }) hs
  refine ⟨?_, hrv, ?_, ?_, ?_, ?_⟩
  · simp [send, hs, htr]
  · rw [hrv]
    exact find_eq_none_of_not_mem (alloc_id_fresh hinv)
  · have hst : (send false now t e).store
        = e.store.set t { r with id := (alloc_id e.client).1, sent_ts := now,
                                 recv_ts := now, is_recv := true,
                                 ec := send_fail_err_code } := by
      simp [send, hs, htr]
    rw [hst, hset]
    rfl
  · simp [send_fail_err_code]
  · simp [send, hs, htr]

/-- Witness for C7: a failed transport send of the subscription request
releases the freshly assigned id 1 to the free-list, leaves nothing
pending, records the local error code and fires the callback once. -/
theorem transport_send_failure_witness :
    ((send false 9 0 eng_sub).client.reuse = [1]) ∧
    (((send false 9 0 eng_sub).store[0]?).map rpc_request.ec
        = some send_fail_err_code) ∧
    ((send false 9 0 eng_sub).trace = eng_sub.trace ++ [0]) := by
  have h := transport_send_failure eng_sub 0 req_s 9 rfl rfl
    ⟨by decide, by decide, by decide, by decide, by decide, by decide⟩
  exact ⟨h.1, h.2.2.2.1, h.2.2.2.2.2⟩

/-- Claim C8: a document that is not valid JSON-RPC shape is dropped and
counted as a protocol-level parse failure: `parse_response` is total (it
cannot crash), fires no callback, and leaves the pending table,
free-list, routing table and every stored request untouched. -/
theorem malformed_drop (e : engine) (now : Int) :
    ((parse_response now .malformed e).client.rv = e.client.rv) ∧
    ((parse_response now .malformed e).client.reuse = e.client.reuse) ∧
    ((parse_response now .malformed e).client.smap = e.client.smap) ∧
    ((parse_response now .malformed e).client.id = e.client.id) ∧
    ((parse_response now .malformed e).store = e.store) ∧
    ((parse_response now .malformed e).trace = e.trace) ∧
    ((parse_response now .malformed e).client.nfail = e.client.nfail + 1) := by
  refine ⟨?_, ?_, ?_, ?_, ?_, ?_, ?_⟩ <;> simp [parse_response]

/-- Claim C9: every concrete request type deriving plain `rpc_request`
answers true to the transport-affinity query `get_is_http` (the base
default), and the one deriving `rpc_subscription` answers false, so
subscriptions always route to the push channel. -/
theorem get_is_http_affinity :
    ∀ ty : req_type, get_is_http ty = !derives_subscription ty := by
  intro ty
  cases ty <;> rfl

/-- Claim C10: the nine chain-specific error-code macros are exactly the
consecutive integers -32001 through -32009, in header order. -/
theorem error_code_taxonomy :
    PC_RPC_ERROR_BLOCK_CLEANED_UP = -32001 ∧
    PC_RPC_ERROR_SEND_TX_PREFLIGHT_FAIL = -32002 ∧
    PC_RPC_ERROR_TX_SIG_VERIFY_FAILURE = -32003 ∧
    PC_RPC_ERROR_BLOCK_NOT_AVAILABLE = -32004 ∧
    PC_RPC_ERROR_NODE_UNHEALTHY = -32005 ∧
    PC_RPC_ERROR_TX_PRECOMPILE_VERIFY_FAIL = -32006 ∧
    PC_RPC_ERROR_SLOT_SKIPPED = -32007 ∧
    PC_RPC_ERROR_NO_SNAPSHOT = -32008 ∧
    PC_RPC_ERROR_LONG_TERM_SLOT_SKIPPED = -32009 ∧
    ([PC_RPC_ERROR_BLOCK_CLEANED_UP, PC_RPC_ERROR_SEND_TX_PREFLIGHT_FAIL,
      PC_RPC_ERROR_TX_SIG_VERIFY_FAILURE, PC_RPC_ERROR_BLOCK_NOT_AVAILABLE,
      PC_RPC_ERROR_NODE_UNHEALTHY, PC_RPC_ERROR_TX_PRECOMPILE_VERIFY_FAIL,
      PC_RPC_ERROR_SLOT_SKIPPED, PC_RPC_ERROR_NO_SNAPSHOT,
      PC_RPC_ERROR_LONG_TERM_SLOT_SKIPPED]
      = (List.range 9).map (fun k => -32001 - (k : Int))) := by
  refine ⟨rfl, rfl, rfl, rfl, rfl, rfl, rfl, rfl, rfl, ?_⟩
  decide
